import Mathlib

/-!
Verification of the agent-core-UI chat client.

This file gives a shallow embedding of the client's stream-reconciliation
logic and session management, translated from the TypeScript source:

* `src/app/page.tsx` (`ChatPage`): the conversation view state
  (`messages`, `input`, `isLoading`, `currentSessionId`, `streamingMessage`,
  `liveToolActivity`), the send/stream loop `handleSendMessage`
  (lines 82-140), the history loader `loadHistory` (lines 50-69) and the
  offline-disabled input controls (lines 328-344).
* `src/services/api.ts` and the inline reader loop of `handleSendMessage`:
  the transport reader that splits each decoded chunk on a blank line and
  keeps the `data: `-prefixed fragments.
* the sidebar component (`checkHealth`, `SessionRow.commitRename`,
  `Sidebar.handleRename`): health classification, offline navigation
  lockout and optimistic session rename.

External library functions (JavaScript `String.prototype.trim`,
`String.prototype.split`, `Response.ok`, `JSON.parse`) are modelled
explicitly: `trim` and `split` are given their ECMAScript meaning on
character lists, `Response.ok` is `200 <= status <= 299`, and `JSON.parse`
of an event payload is an abstract decoding function
`List Char → Option StreamEvent` (the `catch` branch of the source maps a
thrown parse error to `none`).
-/

namespace AgentCoreUI

/-- Message roles, from the `Message` interface in `src/app/page.tsx`. -/
inductive Role
  | human
  | ai
  | tool
deriving DecidableEq

/-- A durable transcript entry: `\x7b role, content \x7d` in the source. -/
structure Message where
  role : Role
  content : String
deriving DecidableEq

/-- One interpreted stream event: the source's parsed JSON record with
discriminator `type` equal to `"tool"` or `"text"` and a `content` string. -/
inductive StreamEvent
  | toolEvt (content : String)
  | textEvt (content : String)
deriving DecidableEq

/-- The ephemeral state touched while consuming one response stream:
the local variable `accumulatedText` and the React states
`streamingMessage` and `liveToolActivity` of `ChatPage`. -/
structure StreamState where
  accumulatedText : String
  streamingMessage : String
  liveToolActivity : String
deriving DecidableEq

/-- The event dispatch of `handleSendMessage` (`page.tsx` lines 119-125):
a `tool` event overwrites `liveToolActivity`; a `text` event stores its
content in `accumulatedText`, clears `liveToolActivity` and sets
`streamingMessage` to the accumulated text. -/
def processEvent (s : StreamState) : StreamEvent → StreamState
  | StreamEvent.toolEvt c => { s with liveToolActivity := c }
  | StreamEvent.textEvt c =>
      { accumulatedText := c, streamingMessage := c, liveToolActivity := "" }

/-- Folding `processEvent` over the interpreted events of one stream. -/
def processEvents (s : StreamState) (es : List StreamEvent) : StreamState :=
  es.foldl processEvent s

/-- ECMAScript white space as used by `String.prototype.trim` on the
inputs of this client (space, tab, line feed, carriage return). -/
def isJsSpace (c : Char) : Bool :=
  c == ' ' || c == '\t' || c == '\n' || c == '\r'

/-- Strip leading and trailing white space from a character list. -/
def trimChars (l : List Char) : List Char :=
  ((l.dropWhile isJsSpace).reverse.dropWhile isJsSpace).reverse

/-- Model of JavaScript `s.trim()`. -/
def jsTrim (s : String) : String :=
  String.mk (trimChars s.data)

/-- The contents of the `text` events of a stream, in order. -/
def textContents (es : List StreamEvent) : List String :=
  es.filterMap fun e =>
    match e with
    | StreamEvent.textEvt c => some c
    | StreamEvent.toolEvt _ => none

/-- The last element of a list, or the default `d` for the empty list. -/
def lastOr (d : String) : List String → String
  | [] => d
  | t :: rest => lastOr t rest

end AgentCoreUI

namespace AgentCoreUI

/-- The `data: ` marker that an event record must start with
(`line.startsWith("data: ")` in the source). -/
def dataMarker : List Char := "data: ".data

/-- The payload of a `data: `-prefixed record: the source computes it as
`line.replace("data: ", "")`, which under the `startsWith` guard removes
exactly the six marker characters. -/
def recordPayload (line : List Char) : List Char :=
  line.drop 6

/-- Processing of one line of a decoded chunk (`page.tsx` lines 116-127):
lines without the `data: ` prefix are ignored; on a prefixed line the JSON
payload is decoded, a decode failure (`catch`) is logged and skipped, and
a decoded event is dispatched to `processEvent`. -/
def processLine (decode : List Char → Option StreamEvent)
    (s : StreamState) (line : List Char) : StreamState :=
  if dataMarker.isPrefixOf line then
    match decode (recordPayload line) with
    | some e => processEvent s e
    | none => s
  else s

/-- Folding `processLine` over the record lines of a stream. -/
def processLines (decode : List Char → Option StreamEvent)
    (s : StreamState) (lines : List (List Char)) : StreamState :=
  lines.foldl (processLine decode) s

/-- Model of JavaScript `chunk.split("\n\n")`: split at every
non-overlapping occurrence of a blank line, left to right, keeping empty
fragments, as `String.prototype.split` does. -/
def splitNN : List Char → List (List Char)
  | [] => [[]]
  | '\n' :: '\n' :: rest => [] :: splitNN rest
  | c :: rest =>
      match splitNN rest with
      | [] => [[c]]
      | h :: t => (c :: h) :: t

/-- The records a single decoded chunk contributes in the source reader
loop: split the chunk on blank lines and keep the `data: `-prefixed
fragments (`page.tsx` lines 114-116, `api.ts` lines 25-28). -/
def recordsInChunk (chunk : List Char) : List (List Char) :=
  (splitNN chunk).filter fun l => dataMarker.isPrefixOf l

/-- All records the source transport reader yields for a sequence of
decoded chunks: each chunk is split independently, with no carry-over of a
partial record from one chunk to the next. -/
def codeYieldedRecords (chunks : List (List Char)) : List (List Char) :=
  chunks.flatMap recordsInChunk

/-- The view state of `ChatPage` that `handleSendMessage` touches. -/
structure PageState where
  messages : List Message
  input : String
  isLoading : Bool
  currentSessionId : String
  streamingMessage : String
  liveToolActivity : String
deriving DecidableEq

/-- How one response cycle ends: the reader reaches `done` after the given
events (`normal`), or the fetch or a read of the body throws after a
prefix of the events has been processed (`transportFailure`). -/
inductive CycleOutcome
  | normal (events : List StreamEvent)
  | transportFailure (events : List StreamEvent)
deriving DecidableEq

/-- `handleSendMessage` of `page.tsx` (lines 82-140), as a function of the
pre-state, the fresh id `uuidv4()` would produce, and the cycle outcome.
The returned `Bool` records whether a `POST /chat` request was started.

* Guard (line 83): an all-whitespace input or `isLoading` returns with no
  state change and no request.
* Lines 85-96: choose the target session id, clear the input, set
  `isLoading`, append the optimistic human message.  (The `router.push`
  and `skipHistoryLoad` side effects touch no modelled state.)
* Normal end (lines 110-132): process the events, append an ai message
  with the accumulated text, clear both ephemeral buffers.
* Transport failure (lines 135-139): the `catch` only logs, so the
  buffers keep whatever the processed prefix left in them; no ai message
  is appended.  The `finally` always resets `isLoading`. -/
def handleSend (st : PageState) (freshId : String) (oc : CycleOutcome) :
    PageState × Bool :=
  if jsTrim st.input = "" ∨ st.isLoading = true then (st, false)
  else
    let targetId := if st.currentSessionId = "" then freshId else st.currentSessionId
    let userMessage := jsTrim st.input
    let stStart : PageState :=
      { st with
          currentSessionId := targetId
          input := ""
          isLoading := true
          messages := st.messages ++ [⟨Role.human, userMessage⟩] }
    match oc with
    | CycleOutcome.normal events =>
        let fin := processEvents
          ⟨"", stStart.streamingMessage, stStart.liveToolActivity⟩ events
        ({ stStart with
            messages := stStart.messages ++ [⟨Role.ai, fin.accumulatedText⟩]
            streamingMessage := ""
            liveToolActivity := ""
            isLoading := false }, true)
    | CycleOutcome.transportFailure events =>
        let fin := processEvents
          ⟨"", stStart.streamingMessage, stStart.liveToolActivity⟩ events
        ({ stStart with
            streamingMessage := fin.streamingMessage
            liveToolActivity := fin.liveToolActivity
            isLoading := false }, true)

/-- The system reachability states of the sidebar. -/
inductive SystemStatus
  | checking
  | online
  | offline
deriving DecidableEq

/-- The outcome of one health `fetch`: the server responded with the given
HTTP status, or the fetch threw. -/
inductive FetchOutcome
  | responded (status : Nat)
  | threw
deriving DecidableEq

/-- `Response.ok` of the Fetch standard: status in the 2xx range. -/
def responseOk (status : Nat) : Bool :=
  200 ≤ status && status ≤ 299

/-- The `ok` flag `checkHealth` records per endpoint: `res.ok` when the
fetch responded, `false` when it threw (the `catch` branch). -/
def fetchOk : FetchOutcome → Bool
  | FetchOutcome.responded status => responseOk status
  | FetchOutcome.threw => false

/-- `checkHealth` of the sidebar (lines 21-35 of the sidebar source): map
every configured endpoint to `\x7b label, ok \x7d`, collect the labels of the
failing ones, and classify the system as online exactly when there is no
failure. -/
def checkHealth (endpoints : List (String × FetchOutcome)) :
    SystemStatus × List String :=
  let results := endpoints.map fun p => (p.1, fetchOk p.2)
  let failures := (results.filter fun r => !r.2).map fun r => r.1
  (if failures.length = 0 then SystemStatus.online else SystemStatus.offline,
   failures)

/-- `isOffline` as computed in `ChatPage` and `SessionRow`. -/
def isOfflineFlag (status : SystemStatus) : Bool :=
  status == SystemStatus.offline

/-- The chat `Input`'s `disabled` prop (`page.tsx` line 335). -/
def chatInputDisabled (loading : Bool) (status : SystemStatus) : Bool :=
  loading || isOfflineFlag status

/-- The send `Button`'s `disabled` prop (`page.tsx` line 339). -/
def sendButtonDisabled (loading : Bool) (inp : String)
    (status : SystemStatus) : Bool :=
  loading || (jsTrim inp == "") || isOfflineFlag status

/-- Whether a sidebar session row renders as a navigable link: offline
rows render as an inert `div` instead (`SessionRow`, sidebar source
lines 138-145). -/
def sessionRowNavigable (status : SystemStatus) : Bool :=
  !(isOfflineFlag status)

/-- The state touched by session switching and history loading in
`ChatPage`. -/
structure HistoryState where
  currentSessionId : String
  messages : List Message
  isLoading : Bool
deriving DecidableEq

/-- The interleaved occurrences relevant to history loading:
`sessionChange sid` is a URL change to session `sid` (which triggers
`loadHistory`, clearing the messages and setting `isLoading`);
`historyResolved forSession data` is the completion handler of a history
fetch that was started for `forSession` and resolved with `data`. -/
inductive HistEvent
  | sessionChange (sid : String)
  | historyResolved (forSession : String) (data : List Message)
deriving DecidableEq

/-- One step of the history machinery of `page.tsx` lines 41-73.  A
session change sets `currentSessionId` and starts `loadHistory`
(lines 57-58: `setMessages([])`, `setIsLoading(true)`).  A resolving fetch
runs lines 62-67: `setMessages(data.map(...))` and, in `finally`,
`setIsLoading(false)` — the handler does not compare the session the
fetch was started for against the now-active one, so the `forSession`
argument is ignored exactly as in the source. -/
def histStep (s : HistoryState) : HistEvent → HistoryState
  | HistEvent.sessionChange sid =>
      { currentSessionId := sid, messages := [], isLoading := true }
  | HistEvent.historyResolved _ data =>
      { s with messages := data, isLoading := false }

/-- Folding `histStep` over a trace of history occurrences. -/
def runHistory (s : HistoryState) (t : List HistEvent) : HistoryState :=
  t.foldl histStep s

/-- A sidebar session entry: `\x7b id, title \x7d`. -/
structure Session where
  id : String
  title : String
deriving DecidableEq

/-- The optimistic update of `Sidebar.handleRename` (sidebar source
line 415): retitle the sessions whose id matches, keep the rest. -/
def applyOptimisticRename (sessions : List Session) (sid newTitle : String) :
    List Session :=
  sessions.map fun s => if s.id = sid then { s with title := newTitle } else s

/-- `SessionRow.commitRename` (sidebar source lines 111-117) combined with
the optimistic part of `Sidebar.handleRename` (lines 413-421): trim the
edited value; when it is non-empty and differs from the current title,
apply the optimistic retitle and issue a PATCH with the new title
(returned as `some (id, title)`); otherwise change nothing and issue no
request. -/
def commitRename (editValue : String) (sess : Session)
    (sessions : List Session) : List Session × Option (String × String) :=
  let trimmed := jsTrim editValue
  if trimmed ≠ "" ∧ trimmed ≠ sess.title then
    (applyOptimisticRename sessions sess.id trimmed, some (sess.id, trimmed))
  else
    (sessions, none)

/-- The stream state at the start of a cycle whose predecessor cleared the
ephemeral buffers (the state in which the spec's `Streaming` phase is
entered). -/
def streamStart : StreamState := ⟨"", "", ""⟩

/-- The two ephemeral buffers are not both visibly populated. -/
def buffersExclusive (s : StreamState) : Prop :=
  s.streamingMessage = "" ∨ s.liveToolActivity = ""

/-- Event sequences consisting of `text` events only. -/
def allText : List StreamEvent → Bool
  | [] => true
  | StreamEvent.textEvt _ :: rest => allText rest
  | StreamEvent.toolEvt _ :: _ => false

/-- Event sequences in which no `tool` event arrives after a `text`
event. -/
def noToolAfterText : List StreamEvent → Bool
  | [] => true
  | StreamEvent.toolEvt _ :: rest => noToolAfterText rest
  | StreamEvent.textEvt _ :: rest => allText rest

/-- The `accumulatedText` left by a stream is the content of its last
`text` event, or the initial value when no `text` event occurred. -/
theorem processEvents_accumulated (es : List StreamEvent) (s : StreamState) :
    (processEvents s es).accumulatedText =
      lastOr s.accumulatedText (textContents es) := by
  induction es generalizing s with
  | nil => rfl
  | cons e rest ih =>
    cases e with
    | toolEvt c => exact ih (processEvent s (StreamEvent.toolEvt c))
    | textEvt c => exact ih (processEvent s (StreamEvent.textEvt c))

theorem lastOr_append_single (ts : List String) (d tn : String) :
    lastOr d (ts ++ [tn]) = tn := by
  induction ts generalizing d with
  | nil => rfl
  | cons t rest ih => exact ih t

theorem getLast?_append_pair {α : Type} (l : List α) (a b : α) :
    (l ++ [a, b]).getLast? = some b := by
  have h : l ++ [a, b] = (l ++ [a]) ++ [b] := by simp
  rw [h, List.getLast?_concat]

/-- What `handleSendMessage` does on a cycle that ends normally, for a
non-blank input in the idle state. -/
theorem handleSend_normal (st : PageState) (freshId : String)
    (events : List StreamEvent)
    (hinput : ¬ jsTrim st.input = "") (hload : st.isLoading = false) :
    handleSend st freshId (CycleOutcome.normal events) =
      ({ messages := st.messages ++
            [⟨Role.human, jsTrim st.input⟩,
             ⟨Role.ai, lastOr "" (textContents events)⟩]
         input := ""
         isLoading := false
         currentSessionId :=
           if st.currentSessionId = "" then freshId else st.currentSessionId
         streamingMessage := ""
         liveToolActivity := "" }, true) := by
  have hcond : ¬ (jsTrim st.input = "" ∨ st.isLoading = true) := by
    rintro (h | h)
    · exact hinput h
    · rw [hload] at h
      exact Bool.noConfusion h
  have hacc : (processEvents
      ⟨"", st.streamingMessage, st.liveToolActivity⟩ events).accumulatedText =
      lastOr "" (textContents events) := by
    rw [processEvents_accumulated]
  unfold handleSend
  rw [if_neg hcond]
  dsimp only
  rw [hacc, List.append_assoc]
  rfl

/-- Processing only `text` events preserves buffer exclusivity: each one
leaves the tool-activity buffer empty. -/
theorem allText_buffersExclusive (es : List StreamEvent) :
    ∀ s : StreamState, allText es = true → buffersExclusive s →
      buffersExclusive (processEvents s es) := by
  induction es with
  | nil => exact fun _ _ hs => hs
  | cons e rest ih =>
    intro s h hs
    cases e with
    | toolEvt c => simp [allText] at h
    | textEvt c =>
        exact ih (processEvent s (StreamEvent.textEvt c)) h (Or.inr rfl)

/-- Buffer exclusivity is maintained along any event sequence with no
`tool` event after a `text` event, starting from an empty streaming
buffer. -/
theorem noToolAfterText_buffersExclusive (es : List StreamEvent) :
    ∀ s : StreamState, noToolAfterText es = true → buffersExclusive s →
      s.streamingMessage = "" → buffersExclusive (processEvents s es) := by
  induction es with
  | nil => exact fun _ _ hs _ => hs
  | cons e rest ih =>
    intro s h _ hstream
    cases e with
    | toolEvt c =>
        exact ih (processEvent s (StreamEvent.toolEvt c)) h
          (Or.inl hstream) hstream
    | textEvt c =>
        exact allText_buffersExclusive rest
          (processEvent s (StreamEvent.textEvt c)) h (Or.inr rfl)

/-- The status component of `checkHealth` is computed from the length of
its failure list. -/
theorem checkHealth_fst (eps : List (String × FetchOutcome)) :
    (checkHealth eps).1 =
      (if (checkHealth eps).2.length = 0 then SystemStatus.online
       else SystemStatus.offline) := rfl

/-- The failure list of `checkHealth` is empty exactly when every
configured endpoint check succeeded. -/
theorem checkHealth_failures_nil_iff (eps : List (String × FetchOutcome)) :
    (checkHealth eps).2 = [] ↔ ∀ p ∈ eps, fetchOk p.2 = true := by
  show ((eps.map fun p => (p.1, fetchOk p.2)).filter fun r => !r.2).map
      (fun r => r.1) = [] ↔ _
  simp only [List.map_eq_nil_iff, List.filter_eq_nil_iff, List.mem_map]
  constructor
  · intro h p hmem
    exact of_not_not (by simpa using h (p.1, fetchOk p.2) ⟨p, hmem, rfl⟩)
  · intro h r hr
    rcases hr with ⟨p, hp, hpr⟩
    rw [← hpr]
    simpa using h p hp

/-- `checkHealth` classifies the system as online exactly when every
configured endpoint check succeeded. -/
theorem checkHealth_online_iff (eps : List (String × FetchOutcome)) :
    (checkHealth eps).1 = SystemStatus.online ↔
      ∀ p ∈ eps, fetchOk p.2 = true := by
  rw [checkHealth_fst, ← checkHealth_failures_nil_iff, ← List.length_eq_zero]
  by_cases h : (checkHealth eps).2.length = 0
  · simp [h]
  · simp [h]

/-- A label is surfaced in the failure list exactly when one of the
configured endpoints carries it and its check failed. -/
theorem checkHealth_mem_failures (eps : List (String × FetchOutcome))
    (label : String) :
    label ∈ (checkHealth eps).2 ↔
      ∃ oc, (label, oc) ∈ eps ∧ fetchOk oc = false := by
  show label ∈ ((eps.map fun p => (p.1, fetchOk p.2)).filter
      fun r => !r.2).map (fun r => r.1) ↔ _
  simp only [List.mem_map, List.mem_filter]
  constructor
  · rintro ⟨r, ⟨hr, hfail⟩, hlabel⟩
    rcases hr with ⟨p, hp, hpr⟩
    refine ⟨p.2, ?_, ?_⟩
    · have : p.1 = label := by rw [← hlabel, ← hpr]
      rw [← this]
      exact hp
    · have h2 : fetchOk p.2 = r.2 := by rw [← hpr]
      rw [h2]
      simpa using hfail
  · rintro ⟨oc, hmem, hfail⟩
    exact ⟨(label, fetchOk oc),
      ⟨⟨(label, oc), hmem, rfl⟩, by rw [hfail]; rfl⟩, rfl⟩

/-- Claim C1: for every finite stream whose `text` events carry contents
T1, ..., Tn (n >= 1) in order, possibly interleaved with `tool` events,
the ai Message committed when the stream ends has content exactly Tn —
each `text` event replaces the streaming buffer rather than being
concatenated onto it. -/
theorem c1_committed_message_is_last_text (st : PageState) (freshId : String)
    (events : List StreamEvent) (ts : List String) (tn : String)
    (hinput : ¬ jsTrim st.input = "") (hload : st.isLoading = false)
    (htexts : textContents events = ts ++ [tn]) :
    ((handleSend st freshId (CycleOutcome.normal events)).1).messages.getLast?
      = some ⟨Role.ai, tn⟩ := by
  rw [handleSend_normal st freshId events hinput hload]
  dsimp only
  rw [htexts, lastOr_append_single, getLast?_append_pair]

/-- Witness for C1: sending "hello" against the stream
`tool "searching", text "Hi", text "Hi there"` commits an ai message whose
content is the last text snapshot, "Hi there". -/
theorem c1_witness :
    ¬ jsTrim ((⟨[], "hello", false, "", "", ""⟩ : PageState)).input = "" ∧
    ((⟨[], "hello", false, "", "", ""⟩ : PageState)).isLoading = false ∧
    textContents [StreamEvent.toolEvt "searching", StreamEvent.textEvt "Hi",
        StreamEvent.textEvt "Hi there"] = ["Hi"] ++ ["Hi there"] ∧
    ((handleSend ⟨[], "hello", false, "", "", ""⟩ "fresh-id"
        (CycleOutcome.normal [StreamEvent.toolEvt "searching",
          StreamEvent.textEvt "Hi",
          StreamEvent.textEvt "Hi there"])).1).messages.getLast? =
      some ⟨Role.ai, "Hi there"⟩ :=
  ⟨by decide, rfl, by decide,
   c1_committed_message_is_last_text ⟨[], "hello", false, "", "", ""⟩
     "fresh-id"
     [StreamEvent.toolEvt "searching", StreamEvent.textEvt "Hi",
      StreamEvent.textEvt "Hi there"]
     ["Hi"] "Hi there" (by decide) rfl (by decide)⟩

/-- Claim C2: a record whose payload fails to decode, situated between
arbitrary records, is skipped — processing does not stop there, every
record before and after it is still interpreted, and the resulting state
equals the state obtained with the malformed record absent. -/
theorem c2_malformed_record_skipped (decode : List Char → Option StreamEvent)
    (s : StreamState) (pre post : List (List Char)) (bad : List Char)
    (hmark : dataMarker.isPrefixOf bad = true)
    (hfail : decode (recordPayload bad) = none) :
    processLines decode s (pre ++ bad :: post) =
      processLines decode s (pre ++ post) := by
  have hskip : ∀ b : StreamState, processLine decode b bad = b := by
    intro b
    unfold processLine
    rw [if_pos hmark, hfail]
  unfold processLines
  rw [List.foldl_append, List.foldl_append, List.foldl_cons, hskip]

/-- A concrete decoder used to instantiate C2: it accepts exactly the
payload `T:hi` and rejects everything else. -/
def decodeSimple (payload : List Char) : Option StreamEvent :=
  if payload = ("T:hi").data then some (StreamEvent.textEvt "hi") else none

/-- Witness for C2: with a concrete decoder, a stream containing an
undecodable record between two valid ones produces the same state as the
stream without it. -/
theorem c2_witness :
    dataMarker.isPrefixOf (("data: oops").data) = true ∧
    decodeSimple (recordPayload (("data: oops").data)) = none ∧
    processLines decodeSimple streamStart
        [("data: T:hi").data, ("data: oops").data, ("data: T:hi").data] =
      processLines decodeSimple streamStart
        [("data: T:hi").data, ("data: T:hi").data] :=
  ⟨by decide, by decide,
   c2_malformed_record_skipped decodeSimple streamStart
     [("data: T:hi").data] [("data: T:hi").data] (("data: oops").data)
     (by decide) (by decide)⟩

/-- Claim C3 (code bug): the transport reader splits every decoded chunk
on blank lines independently, so a record split across a chunk boundary is
not carried over: the chunks `"data: A"` and `"B\n\n"`, whose
concatenation encodes the single record `data: AB`, make the code yield
the truncated record `data: A` instead — not the full set of records of
the reassembled stream. -/
theorem c3_split_record_is_dropped :
    codeYieldedRecords [("data: A").data, ("B\n\n").data] =
      [("data: A").data] ∧
    recordsInChunk (("data: A").data ++ ("B\n\n").data) =
      [("data: AB").data] ∧
    ¬ (codeYieldedRecords [("data: A").data, ("B\n\n").data] =
        recordsInChunk (("data: A").data ++ ("B\n\n").data)) :=
  ⟨by decide, by decide, by decide⟩

/-- Claim C4 (code bug): a response cycle that ends in a transport failure
appends no ai message and returns to idle, but the `catch` branch does not
clear the ephemeral buffers: after the events `text "Hi"` followed by a
read failure, `streamingMessage` is left holding `"Hi"` instead of being
cleared. -/
theorem c4_failure_leaves_streaming_buffer :
    handleSend ⟨[], "hello", false, "s1", "", ""⟩ "fresh-id"
        (CycleOutcome.transportFailure [StreamEvent.textEvt "Hi"]) =
      (⟨[⟨Role.human, "hello"⟩], "", false, "s1", "Hi", ""⟩, true) ∧
    ¬ ((handleSend ⟨[], "hello", false, "s1", "", ""⟩ "fresh-id"
        (CycleOutcome.transportFailure
          [StreamEvent.textEvt "Hi"])).1.streamingMessage = "") :=
  ⟨by decide, by decide⟩

/-- Claim C5 (code bug): the history completion handler applies its
result without comparing the session it was fetched for against the
now-active session, so a stale fetch that resolves after a session switch
overwrites the message list: after switching from s1 to s2, s2's history
resolving, and then s1's slow fetch resolving, the transcript shows s1's
stale data while the active session is s2. -/
theorem c5_stale_history_is_applied :
    runHistory ⟨"", [], false⟩
        [HistEvent.sessionChange "s1",
         HistEvent.sessionChange "s2",
         HistEvent.historyResolved "s2" [⟨Role.ai, "fresh"⟩],
         HistEvent.historyResolved "s1" [⟨Role.ai, "stale"⟩]] =
      ⟨"s2", [⟨Role.ai, "stale"⟩], false⟩ ∧
    ¬ ((runHistory ⟨"", [], false⟩
        [HistEvent.sessionChange "s1",
         HistEvent.sessionChange "s2",
         HistEvent.historyResolved "s2" [⟨Role.ai, "fresh"⟩],
         HistEvent.historyResolved "s1" [⟨Role.ai, "stale"⟩]]).messages =
      [⟨Role.ai, "fresh"⟩]) :=
  ⟨by decide, by decide⟩

/-- Counterexample for C6: the claimed invariant — the two ephemeral
buffers are never both non-empty — fails on the reachable state produced
by a `text` event followed by a `tool` event: both buffers are then
populated at once. -/
theorem c6_counterexample_text_then_tool :
    (processEvents streamStart
      [StreamEvent.textEvt "a", StreamEvent.toolEvt "b"]).streamingMessage
        = "a" ∧
    (processEvents streamStart
      [StreamEvent.textEvt "a", StreamEvent.toolEvt "b"]).liveToolActivity
        = "b" ∧
    ¬ ((processEvents streamStart
          [StreamEvent.textEvt "a",
           StreamEvent.toolEvt "b"]).streamingMessage = "" ∨
       (processEvents streamStart
          [StreamEvent.textEvt "a",
           StreamEvent.toolEvt "b"]).liveToolActivity = "") :=
  ⟨by decide, by decide, by decide⟩

/-- Claim C6 (amended): starting from cleared buffers, along any event
sequence in which no `tool` event arrives after a `text` event, the
tool-activity buffer and the streaming buffer are never both non-empty;
in particular interpreting a `text` event clears the tool-activity buffer
simultaneously with setting the streaming buffer.  (The unrestricted
invariant is false: a `tool` event arriving after a `text` event leaves
both buffers populated.) -/
theorem c6_amended_buffers_exclusive (es : List StreamEvent)
    (s : StreamState) (c : String) (h : noToolAfterText es = true) :
    buffersExclusive (processEvents streamStart es) ∧
    (processEvent s (StreamEvent.textEvt c)).liveToolActivity = "" ∧
    (processEvent s (StreamEvent.textEvt c)).streamingMessage = c :=
  ⟨noToolAfterText_buffersExclusive es streamStart h (Or.inl rfl) rfl,
   rfl, rfl⟩

/-- Witness for C6 (amended): over the stream
`tool "searching", text "Hi"` the buffers are never both populated. -/
theorem c6_amended_witness :
    noToolAfterText
      [StreamEvent.toolEvt "searching", StreamEvent.textEvt "Hi"] = true ∧
    buffersExclusive (processEvents streamStart
      [StreamEvent.toolEvt "searching", StreamEvent.textEvt "Hi"]) :=
  ⟨by decide,
   (c6_amended_buffers_exclusive
     [StreamEvent.toolEvt "searching", StreamEvent.textEvt "Hi"]
     streamStart "Hi" (by decide)).1⟩

/-- Claim C7: when the stream ends normally the cycle appends the
optimistic human message and an ai message whose content is the last
`text` snapshot — the empty string when no `text` event arrived — clears
both ephemeral buffers and returns to idle. -/
theorem c7_stream_end_commits (st : PageState) (freshId : String)
    (events : List StreamEvent)
    (hinput : ¬ jsTrim st.input = "") (hload : st.isLoading = false) :
    ((handleSend st freshId (CycleOutcome.normal events)).1).messages =
        st.messages ++ [⟨Role.human, jsTrim st.input⟩,
                        ⟨Role.ai, lastOr "" (textContents events)⟩] ∧
    ((handleSend st freshId
        (CycleOutcome.normal events)).1).streamingMessage = "" ∧
    ((handleSend st freshId
        (CycleOutcome.normal events)).1).liveToolActivity = "" ∧
    ((handleSend st freshId (CycleOutcome.normal events)).1).isLoading
        = false := by
  rw [handleSend_normal st freshId events hinput hload]
  exact ⟨rfl, rfl, rfl, rfl⟩

/-- Witness for C7: a cycle whose stream carries only a `tool` event (no
`text` event at all) still commits an ai message, with empty content, and
ends with cleared buffers in the idle state. -/
theorem c7_witness :
    ¬ jsTrim ((⟨[], "hi", false, "sess", "", ""⟩ : PageState)).input = "" ∧
    ((⟨[], "hi", false, "sess", "", ""⟩ : PageState)).isLoading = false ∧
    ((handleSend ⟨[], "hi", false, "sess", "", ""⟩ "fresh-id"
        (CycleOutcome.normal [StreamEvent.toolEvt "searching"])).1).messages
      = [⟨Role.human, "hi"⟩, ⟨Role.ai, ""⟩] ∧
    ((handleSend ⟨[], "hi", false, "sess", "", ""⟩ "fresh-id"
        (CycleOutcome.normal
          [StreamEvent.toolEvt "searching"])).1).streamingMessage = "" ∧
    ((handleSend ⟨[], "hi", false, "sess", "", ""⟩ "fresh-id"
        (CycleOutcome.normal
          [StreamEvent.toolEvt "searching"])).1).isLoading = false :=
  ⟨by decide, rfl,
   by
    rw [(c7_stream_end_commits ⟨[], "hi", false, "sess", "", ""⟩ "fresh-id"
      [StreamEvent.toolEvt "searching"] (by decide) rfl).1]
    decide,
   (c7_stream_end_commits ⟨[], "hi", false, "sess", "", ""⟩ "fresh-id"
     [StreamEvent.toolEvt "searching"] (by decide) rfl).2.1,
   (c7_stream_end_commits ⟨[], "hi", false, "sess", "", ""⟩ "fresh-id"
     [StreamEvent.toolEvt "searching"] (by decide) rfl).2.2.2⟩

/-- Claim C8: the system is classified online exactly when every health
endpoint succeeds (a thrown fetch or non-2xx response is a failure), the
labels of exactly the failing endpoints are surfaced, and the offline
status disables the chat input, the send button and session-row
navigation. -/
theorem c8_health_classification (eps : List (String × FetchOutcome))
    (label : String) (loading : Bool) (inp : String) :
    ((checkHealth eps).1 = SystemStatus.online ↔
        ∀ p ∈ eps, fetchOk p.2 = true) ∧
    (label ∈ (checkHealth eps).2 ↔
        ∃ oc, (label, oc) ∈ eps ∧ fetchOk oc = false) ∧
    ((checkHealth eps).1 = SystemStatus.offline →
        chatInputDisabled loading SystemStatus.offline = true ∧
        sendButtonDisabled loading inp SystemStatus.offline = true ∧
        sessionRowNavigable SystemStatus.offline = false) := by
  refine ⟨checkHealth_online_iff eps, checkHealth_mem_failures eps label, ?_⟩
  intro _
  refine ⟨?_, ?_, rfl⟩
  · simp [chatInputDisabled, isOfflineFlag]
  · simp [sendButtonDisabled, isOfflineFlag]

/-- Witness for C8: a single endpoint whose fetch throws classifies the
system offline, surfaces that endpoint's label, and a responding 2xx
endpoint classifies it online. -/
theorem c8_witness :
    (checkHealth [("Sessions API", FetchOutcome.responded 200)]).1 =
      SystemStatus.online ∧
    "Sessions API" ∈ (checkHealth [("Sessions API", FetchOutcome.threw)]).2 ∧
    chatInputDisabled false SystemStatus.offline = true :=
  ⟨(c8_health_classification [("Sessions API", FetchOutcome.responded 200)]
      "Sessions API" false "").1.mpr (by decide),
   (c8_health_classification [("Sessions API", FetchOutcome.threw)]
      "Sessions API" false "").2.1.mpr
      ⟨FetchOutcome.threw, by decide, by decide⟩,
   ((c8_health_classification [("Sessions API", FetchOutcome.threw)]
      "Sessions API" false "").2.2 (by decide)).1⟩

/-- Claim C9: while a response cycle is in flight (`isLoading = true`),
invoking the send operation changes no state and starts no request, and
the send button is disabled. -/
theorem c9_send_is_noop_while_loading (st : PageState) (freshId : String)
    (oc : CycleOutcome) (inp : String) (status : SystemStatus)
    (h : st.isLoading = true) :
    handleSend st freshId oc = (st, false) ∧
    sendButtonDisabled st.isLoading inp status = true := by
  constructor
  · unfold handleSend
    rw [if_pos (Or.inr h)]
  · rw [h]
    rfl

/-- Witness for C9: with a stream already in flight, a second send leaves
the whole state untouched, starts no request, and the send button is
disabled. -/
theorem c9_witness :
    ((⟨[⟨Role.human, "first"⟩], "next", true, "s1", "partial", ""⟩ :
        PageState)).isLoading = true ∧
    handleSend ⟨[⟨Role.human, "first"⟩], "next", true, "s1", "partial", ""⟩
        "fresh-id" (CycleOutcome.normal [StreamEvent.textEvt "x"]) =
      (⟨[⟨Role.human, "first"⟩], "next", true, "s1", "partial", ""⟩,
       false) ∧
    sendButtonDisabled true "next" SystemStatus.online = true :=
  ⟨rfl,
   (c9_send_is_noop_while_loading
     ⟨[⟨Role.human, "first"⟩], "next", true, "s1", "partial", ""⟩
     "fresh-id" (CycleOutcome.normal [StreamEvent.textEvt "x"])
     "next" SystemStatus.online rfl).1,
   (c9_send_is_noop_while_loading
     ⟨[⟨Role.human, "first"⟩], "next", true, "s1", "partial", ""⟩
     "fresh-id" (CycleOutcome.normal [StreamEvent.textEvt "x"])
     "next" SystemStatus.online rfl).2⟩

/-- Claim C10: committing a rename whose trimmed title is empty or equal
to the current title is a no-op — no PATCH is issued and the list is
unchanged; a PATCH is issued only for a non-empty, differing trimmed
title, and the optimistic update retitles exactly the sessions with the
matching id, leaving every other entry unchanged. -/
theorem c10_rename_commit (editValue : String) (sess : Session)
    (sessions : List Session) :
    ((jsTrim editValue = "" ∨ jsTrim editValue = sess.title) →
        commitRename editValue sess sessions = (sessions, none)) ∧
    ((commitRename editValue sess sessions).2 ≠ none →
        jsTrim editValue ≠ "" ∧ jsTrim editValue ≠ sess.title) ∧
    (jsTrim editValue ≠ "" → jsTrim editValue ≠ sess.title →
        (commitRename editValue sess sessions).2 =
            some (sess.id, jsTrim editValue) ∧
        (∀ i s₀, sessions.get? i = some s₀ → s₀.id ≠ sess.id →
            ((commitRename editValue sess sessions).1).get? i = some s₀) ∧
        (∀ i s₀, sessions.get? i = some s₀ → s₀.id = sess.id →
            ((commitRename editValue sess sessions).1).get? i =
              some { s₀ with title := jsTrim editValue })) := by
  refine ⟨?_, ?_, ?_⟩
  · intro h
    unfold commitRename
    rw [if_neg]
    rintro ⟨h1, h2⟩
    rcases h with h | h
    · exact h1 h
    · exact h2 h
  · intro hne
    by_cases h1 : jsTrim editValue = ""
    · exfalso
      apply hne
      unfold commitRename
      rw [if_neg]
      rintro ⟨hc, _⟩
      exact hc h1
    · by_cases h2 : jsTrim editValue = sess.title
      · exfalso
        apply hne
        unfold commitRename
        rw [if_neg]
        rintro ⟨_, hc⟩
        exact hc h2
      · exact ⟨h1, h2⟩
  · intro h1 h2
    have hres : commitRename editValue sess sessions =
        (applyOptimisticRename sessions sess.id (jsTrim editValue),
         some (sess.id, jsTrim editValue)) := by
      unfold commitRename
      rw [if_pos ⟨h1, h2⟩]
    refine ⟨by rw [hres], ?_, ?_⟩
    · intro i s₀ hget hid
      rw [hres]
      show (applyOptimisticRename sessions sess.id
        (jsTrim editValue)).get? i = some s₀
      unfold applyOptimisticRename
      rw [List.get?_map, hget]
      show some (if s₀.id = sess.id then _ else s₀) = some s₀
      rw [if_neg hid]
    · intro i s₀ hget hid
      rw [hres]
      show (applyOptimisticRename sessions sess.id
        (jsTrim editValue)).get? i = some _
      unfold applyOptimisticRename
      rw [List.get?_map, hget]
      show some (if s₀.id = sess.id then _ else s₀) = some _
      rw [if_pos hid]

/-- Witness for C10: renaming session s1 from "Old" to "  New Title  "
trims the title, issues a PATCH with "New Title", and leaves the
unrelated session s2 untouched; a whitespace-only edit is a no-op. -/
theorem c10_witness :
    jsTrim "  New Title  " ≠ "" ∧
    jsTrim "  New Title  " ≠ "Old" ∧
    (commitRename "  New Title  " ⟨"s1", "Old"⟩
        [⟨"s1", "Old"⟩, ⟨"s2", "Keep"⟩]).2 = some ("s1", "New Title") ∧
    ((commitRename "  New Title  " ⟨"s1", "Old"⟩
        [⟨"s1", "Old"⟩, ⟨"s2", "Keep"⟩]).1).get? 1 = some ⟨"s2", "Keep"⟩ ∧
    (jsTrim "   " = "" ∨ jsTrim "   " = "Old") ∧
    commitRename "   " ⟨"s1", "Old"⟩ [⟨"s1", "Old"⟩, ⟨"s2", "Keep"⟩] =
      ([⟨"s1", "Old"⟩, ⟨"s2", "Keep"⟩], none) :=
  ⟨by decide, by decide,
   by
    rw [((c10_rename_commit "  New Title  " ⟨"s1", "Old"⟩
      [⟨"s1", "Old"⟩, ⟨"s2", "Keep"⟩]).2.2 (by decide) (by decide)).1]
    decide,
   ((c10_rename_commit "  New Title  " ⟨"s1", "Old"⟩
      [⟨"s1", "Old"⟩, ⟨"s2", "Keep"⟩]).2.2 (by decide) (by decide)).2.1
     1 ⟨"s2", "Keep"⟩ (by decide) (by decide),
   Or.inl (by decide),
   (c10_rename_commit "   " ⟨"s1", "Old"⟩
      [⟨"s1", "Old"⟩, ⟨"s2", "Keep"⟩]).1 (Or.inl (by decide))⟩

end AgentCoreUI

